import Mathlib

/-!
Shallow embedding of the credit-metered chat flow of the ReinhardAI repository.

The embedded code is the React client (`src/frontend/src/pages/Chat.js`,
`src/frontend/src/contexts/AuthContext.js`, `src/frontend/src/utils/api.js`).
The FastAPI backend is not part of the source tree; where a claim depends on
backend behaviour (the Session Store), that part is modelled from the spec and
marked as such in its doc comment.

Conventions of the embedding:
* React `useState` state is a record `ChatState`; each `setX(v)` becomes a
  functional update of the corresponding field.
* JavaScript closure capture is modelled explicitly: `sendMessage` reads
  `messages` once at entry (`messages0`) and all later uses of the `messages`
  variable refer to that captured value, exactly as in the JS closure.
* Results of network calls are supplied by an environment `SendEnv`, so the
  embedding quantifies over every possible upstream behaviour.
* JavaScript truthiness of `response.data.usage?.total_tokens` is modelled by
  `jsTruthyTokens : Option Nat → Bool` (`none` = `usage` absent / `null` /
  field absent, `some 0` = present but zero, both falsy).
* Credit balances are `Int` (the client computes `user.credits - total_tokens`
  with no floor).
-/

/-- JavaScript `String.prototype.trim`: drop leading and trailing whitespace.
Written over the character list so that it evaluates by kernel reduction. -/
def jsTrim (s : String) : String :=
  ⟨((s.data.dropWhile Char.isWhitespace).reverse.dropWhile Char.isWhitespace).reverse⟩

/-- One chat message as held in the client's `messages` state:
`{ role, content }`. -/
structure Message where
  role : String
  content : String
deriving Repr, DecidableEq

/-- The authenticated user as exposed by `AuthContext`: the fields `sendMessage`
reads are `is_admin` and `credits`. -/
structure User where
  is_admin : Bool
  credits : Int
deriving Repr, DecidableEq

/-- A chat-session record as held in the client's `sessions` list
(id, title, model, message count). -/
structure SessionSummary where
  id : Nat
  title : String
  model : String
  message_count : Nat
deriving Repr, DecidableEq

/-- An HTTP error as seen through axios: optional status code and optional
`response.data.detail` payload. -/
structure ApiError where
  status : Option Nat
  detail : Option String
deriving Repr, DecidableEq

/-- The successful payload of `POST /chat`: `{ content, usage: { total_tokens } }`.
`total_tokens = none` models the `usage` object or the field being absent or
null; `some 0` models a present zero. -/
structure CompletionResponse where
  content : String
  total_tokens : Option Nat
deriving Repr, DecidableEq

/-- The client component state of `Chat.js` that the send flow reads or
writes. -/
structure ChatState where
  user : Option User
  sessions : List SessionSummary
  currentSession : Option SessionSummary
  messages : List Message
  inputMessage : String
  selectedModel : String
deriving Repr, DecidableEq

/-- Environment of one `sendMessage` run: what each network call would return.
`createResult` is the fresh session id granted by `POST /chat/sessions` (or its
failure); `completionResult` is the outcome of `POST /chat`. -/
structure SendEnv where
  createResult : Except ApiError Nat
  completionResult : Except ApiError CompletionResponse
deriving Repr

/-- Observable events of one `sendMessage` run, in execution order. -/
inductive SendEvent where
  | sessionCreated (s : SessionSummary)
  | userMessageAppended (m : Message)
  | invocationStarted
  | invocationSucceeded
  | invocationFailed (e : ApiError)
  | assistantMessageAppended (m : Message)
  | creditsDebited (amount : Nat)
  | messagesRolledBack
deriving Repr, DecidableEq

/-- Outcome of one `sendMessage` run as seen by the user. -/
inductive SendOutcome where
  | noInput
  | insufficientCredits
  | success
  | failed (e : ApiError)
  | clientError
deriving Repr, DecidableEq

/-- JavaScript truthiness of `response.data.usage?.total_tokens`. -/
def jsTruthyTokens : Option Nat → Bool
  | some n => n != 0
  | none => false

/-- Admission check of `Chat.js` line 109: `!user?.is_admin && user?.credits <= 0`.
With `user` null, `user?.credits <= 0` is `undefined <= 0`, which is false, so a
null user is not denied here. -/
def admissionDenied : Option User → Bool
  | some u => !u.is_admin && decide (u.credits ≤ 0)
  | none => false

/-- Modelled from the spec: the backend `POST /chat/sessions` handler
(`createSession(ownerId, title, modelId) → ChatSession`, spec section 4.2) is not
under `src/`; per the spec it returns a new session with an empty message list
(message count 0) carrying the requested title and model. -/
def createSessionStore (freshId : Nat) (title modelId : String) : SessionSummary :=
  { id := freshId, title := title, model := modelId, message_count := 0 }

/-- The client `createNewSession` of `Chat.js` lines 59 to 75: posts
`{title: "New Chat", model: selectedModel}`, prepends the returned session to
the list, selects it and clears the visible messages; on failure the catch
block only logs and toasts, leaving the state unchanged. -/
def createNewSession (st : ChatState) (createResult : Except ApiError Nat) :
    ChatState × List SendEvent :=
  match createResult with
  | .ok freshId =>
      let s := createSessionStore freshId "New Chat" st.selectedModel
      ({ st with sessions := s :: st.sessions, currentSession := some s, messages := [] },
       [.sessionCreated s])
  | .error _ => (st, [])

/-- The `sendMessage` flow of `Chat.js` lines 105 to 152, with the
`updateUserCredits` callback of `AuthContext.js` lines 71 to 75 inlined.

Branches, in source order: empty input guard; credit admission guard; session
resolution (create a session when none is selected, swallowing creation
failure); optimistic append of the user turn built from the captured
`messages`; the `POST /chat` call; on success append the assistant turn and,
when `usage?.total_tokens` is truthy and the user is not admin, debit the
balance by it; on failure toast the error detail and restore the captured
`messages` (the optimistic user turn disappears). The `clientError` branch is
the JavaScript `TypeError` that `user.credits` would raise with a null `user`,
which the surrounding try/catch turns into the same rollback. -/
def sendMessage (st : ChatState) (env : SendEnv) :
    ChatState × List SendEvent × SendOutcome :=
  if jsTrim st.inputMessage = "" then (st, [], .noInput)
  else if admissionDenied st.user then (st, [], .insufficientCredits)
  else
    let messages0 := st.messages
    let resolved :=
      match st.currentSession with
      | none => createNewSession st env.createResult
      | some _ => (st, [])
    let st1 := resolved.1
    let userMessage : Message := { role := "user", content := jsTrim st.inputMessage }
    let newMessages := messages0 ++ [userMessage]
    let st2 := { st1 with messages := newMessages, inputMessage := "" }
    let evs2 := resolved.2 ++ [.userMessageAppended userMessage, .invocationStarted]
    match env.completionResult with
    | .ok resp =>
        let assistantMessage : Message := { role := "assistant", content := resp.content }
        let st3 := { st2 with messages := newMessages ++ [assistantMessage] }
        let evs3 := evs2 ++ [.invocationSucceeded, .assistantMessageAppended assistantMessage]
        if jsTruthyTokens resp.total_tokens
            && !(match st3.user with | some u => u.is_admin | none => false) then
          match st3.user, resp.total_tokens with
          | some u, some n =>
              ({ st3 with user := some { u with credits := u.credits - (n : Int) } },
               evs3 ++ [.creditsDebited n], .success)
          | none, _ =>
              ({ st3 with messages := messages0 },
               evs3 ++ [.messagesRolledBack], .clientError)
          | some _, none => (st3, evs3, .success)
        else (st3, evs3, .success)
    | .error e =>
        ({ st2 with messages := messages0 },
         evs2 ++ [.invocationFailed e, .messagesRolledBack], .failed e)

/-- Event classifier: session-creation events. -/
def isSessionCreated : SendEvent → Bool
  | .sessionCreated _ => true
  | _ => false

/-- Event classifier: user-turn appends. -/
def isUserAppended : SendEvent → Bool
  | .userMessageAppended _ => true
  | _ => false

/-- Event classifier: start of the upstream completion call. -/
def isInvocationStarted : SendEvent → Bool
  | .invocationStarted => true
  | _ => false

/-- Event classifier: successful return of the upstream completion call. -/
def isInvocationSucceeded : SendEvent → Bool
  | .invocationSucceeded => true
  | _ => false

/-- Event classifier: failed upstream completion call. -/
def isInvocationFailed : SendEvent → Bool
  | .invocationFailed _ => true
  | _ => false

/-- Event classifier: assistant-turn appends. -/
def isAssistantAppended : SendEvent → Bool
  | .assistantMessageAppended _ => true
  | _ => false

/-- Event classifier: credit debits. -/
def isCreditsDebited : SendEvent → Bool
  | .creditsDebited _ => true
  | _ => false

/-- `precedesB p q evs` holds when every `q`-event in `evs` is preceded by an
earlier `p`-event: true on the empty trace, settled by the head otherwise. -/
def precedesB (p q : SendEvent → Bool) : List SendEvent → Bool
  | [] => true
  | e :: rest => p e || (!q e && precedesB p q rest)

/-- Local side effects the axios response interceptor of `api.js` can perform
besides propagating the error. -/
inductive InterceptorAction where
  | removeToken
  | redirectToLogin
  | toastMessage (msg : String)
deriving Repr, DecidableEq

/-- The axios response-error interceptor of `api.js` lines 30 to 42: on 401 it
removes the stored token, redirects to the login page and toasts; on 402 it
toasts; in every case it ends with `return Promise.reject(error)`, so the
second component is the propagated result handed to the calling code. The
action type is exhaustive for this handler: it has no retry or request-reissue
action because the source performs none. -/
def responseErrorInterceptor (e : ApiError) : List InterceptorAction × Except ApiError Unit :=
  if e.status = some 401 then
    ([.removeToken, .redirectToLogin,
      .toastMessage "Session expired. Please login again."], .error e)
  else if e.status = some 402 then
    ([.toastMessage "Insufficient credits. Please contact admin."], .error e)
  else ([], .error e)

/-- A session record as persisted by the backend Session Store. -/
structure StoredSession where
  id : Nat
  owner : Nat
  title : String
  model : String
  messages : List Message
deriving Repr, DecidableEq

/-- Failure modes of the Session Store operations. -/
inductive StoreError where
  | NotFound
deriving Repr, DecidableEq

/-- Predicate used by the Session Store: the record with this id owned by this
caller. -/
def ownedWithId (sid owner : Nat) (s : StoredSession) : Bool :=
  s.id == sid && s.owner == owner

/-- Modelled from the spec: the backend `getSession(sessionId, ownerId)`
(spec section 4.2) is not under `src/`; per the spec it fails with `NotFound`
when the session is missing or not owned by the caller. -/
def storeGetSession (store : List StoredSession) (sid owner : Nat) :
    Except StoreError StoredSession :=
  match store.find? (ownedWithId sid owner) with
  | some s => .ok s
  | none => .error .NotFound

/-- Modelled from the spec: the backend `deleteSession(sessionId, ownerId)`
(spec section 4.2) is not under `src/`; per the spec it removes the session and
fails with `NotFound` when it is absent or not owned. -/
def storeDeleteSession (store : List StoredSession) (sid owner : Nat) :
    Except StoreError (List StoredSession) :=
  if store.any (ownedWithId sid owner) then
    .ok (store.filter (fun s => !ownedWithId sid owner s))
  else .error .NotFound

/-- The client `deleteSession` handler of `Chat.js` lines 89 to 103 composed
with the spec-modelled store call: on success it drops the session from the
client list and, when it was the selected one, clears the selection and the
visible messages; the catch block only logs and toasts, so on failure the
client state is unchanged. Returns the new client state, the new store, and the
call result as seen by the caller. -/
def clientDeleteSession (st : ChatState) (store : List StoredSession)
    (sid owner : Nat) : ChatState × List StoredSession × Except StoreError Unit :=
  match storeDeleteSession store sid owner with
  | .ok store2 =>
      let st1 := { st with sessions := st.sessions.filter (fun s => s.id != sid) }
      let st2 :=
        if (match st.currentSession with | some c => c.id == sid | none => false) then
          { st1 with currentSession := none, messages := [] }
        else st1
      (st2, store2, .ok ())
  | .error e => (st, store, .error e)

/-- Helper: a non-admission-denied user is admin or has positive balance. -/
lemma admissionDenied_false {u : User} (h : u.is_admin = true ∨ 0 < u.credits) :
    admissionDenied (some u) = false := by
  rcases h with h | h
  · simp [admissionDenied, h]
  · simp [admissionDenied, h, not_le.mpr h]

/-- Helper: full characterisation of a `sendMessage` run whose completion call
fails, for an admitted user: the outcome carries the error, the visible
messages and the user record are unchanged, and no debit event occurs. -/
lemma sendMessage_failed_spec (st : ChatState) (env : SendEnv) (e : ApiError) (u : User)
    (hin : jsTrim st.inputMessage ≠ "") (hu : st.user = some u)
    (hadm : u.is_admin = true ∨ 0 < u.credits)
    (hc : env.completionResult = Except.error e) :
    (sendMessage st env).2.2 = SendOutcome.failed e ∧
    (sendMessage st env).1.messages = st.messages ∧
    (sendMessage st env).1.user = st.user ∧
    (sendMessage st env).2.1.any isCreditsDebited = false := by
  have hden : admissionDenied st.user = false := by rw [hu]; exact admissionDenied_false hadm
  cases hcs : st.currentSession with
  | none =>
      cases hcr : env.createResult with
      | ok fid =>
          simp [sendMessage, createNewSession, hin, hden, hc, hcs, hcr, isCreditsDebited]
      | error e2 =>
          simp [sendMessage, createNewSession, hin, hden, hc, hcs, hcr, isCreditsDebited]
  | some s =>
      simp [sendMessage, hin, hden, hc, hcs, isCreditsDebited]

/-- Helper: full characterisation of a `sendMessage` run whose completion call
succeeds, for an admitted user: the outcome is success, the visible messages
are the captured pre-send list plus the trimmed user turn and the assistant
turn, the balance loses the reported token usage unless the user is admin
(absent or zero usage counting as zero), and a debit event occurs exactly when
the usage is truthy and the user is not admin. -/
lemma sendMessage_ok_spec (st : ChatState) (env : SendEnv) (resp : CompletionResponse) (u : User)
    (hin : jsTrim st.inputMessage ≠ "") (hu : st.user = some u)
    (hadm : u.is_admin = true ∨ 0 < u.credits)
    (hc : env.completionResult = Except.ok resp) :
    (sendMessage st env).2.2 = SendOutcome.success ∧
    (sendMessage st env).1.messages =
      st.messages ++ [⟨"user", jsTrim st.inputMessage⟩, ⟨"assistant", resp.content⟩] ∧
    (sendMessage st env).1.user =
      some { u with credits :=
        u.credits - (if u.is_admin then 0 else (resp.total_tokens.getD 0 : Int)) } ∧
    (sendMessage st env).2.1.any isCreditsDebited =
      (jsTruthyTokens resp.total_tokens && !u.is_admin) := by
  obtain ⟨adm, cr⟩ := u
  have hden : admissionDenied (some (⟨adm, cr⟩ : User)) = false := admissionDenied_false hadm
  cases adm <;>
    rcases ht : resp.total_tokens with _ | (_ | m) <;>
    rcases hcs : st.currentSession with _ | s <;>
    rcases hcr : env.createResult with ⟨e2⟩ | ⟨fid⟩ <;>
    simp [sendMessage, createNewSession, hin, hden, hc, hcs, hcr, hu, ht,
      jsTruthyTokens, isCreditsDebited]

/-- Helper: after keeping only the elements refuting `p`, `find?` for `p`
yields nothing. -/
lemma find?_filter_not {α : Type} (p : α → Bool) (l : List α) :
    (l.filter (fun a => !p a)).find? p = none := by
  induction l with
  | nil => rfl
  | cons a l ih =>
      by_cases h : p a = true <;> simp [List.filter_cons, h, ih]

/-- Helper: after keeping only the elements refuting `p`, no element
satisfies `p`. -/
lemma any_filter_not {α : Type} (p : α → Bool) (l : List α) :
    (l.filter (fun a => !p a)).any p = false := by
  induction l with
  | nil => rfl
  | cons a l ih =>
      by_cases h : p a = true <;> simp [List.filter_cons, h, ih]

/-- Claim C1: for a send attempt by a non-exempt (non-admin) user whose credit
balance is at most 0, `sendMessage` stops at the admission guard with the
insufficient-credits outcome: the returned state is exactly the input state
(message list, session list and balance untouched) and the event trace is
empty, so no session is created and no upstream completion call is made. -/
theorem sendMessage_zero_balance_denied (st : ChatState) (env : SendEnv) (u : User)
    (hin : jsTrim st.inputMessage ≠ "") (hu : st.user = some u)
    (hadmin : u.is_admin = false) (hcred : u.credits ≤ 0) :
    sendMessage st env = (st, [], SendOutcome.insufficientCredits) := by
  have hden : admissionDenied st.user = true := by
    rw [hu]; simp [admissionDenied, hadmin, hcred]
  simp [sendMessage, hin, hden]

/-- Witness for C1: a non-admin user at 0 credits sending "hi" is denied with
no state change and no events, whatever the network would have answered. -/
theorem sendMessage_zero_balance_denied_witness :
    sendMessage
      { user := some { is_admin := false, credits := 0 }, sessions := [],
        currentSession := none, messages := [], inputMessage := "hi",
        selectedModel := "m/x" }
      { createResult := Except.ok 1,
        completionResult := Except.ok { content := "a", total_tokens := some 5 } } =
    ({ user := some { is_admin := false, credits := 0 }, sessions := [],
       currentSession := none, messages := [], inputMessage := "hi",
       selectedModel := "m/x" }, [], SendOutcome.insufficientCredits) :=
  sendMessage_zero_balance_denied _ _ { is_admin := false, credits := 0 }
    (by decide) rfl rfl (by decide)

/-- Claim C2: for every successful send by an admitted user, the resulting
balance is the prior balance minus the response's reported token usage for a
non-exempt user (an absent or zero usage counting as zero), and the prior
balance unchanged for an exempt (admin) user regardless of the usage — the
`if` collapses to subtracting 0 in the admin case. -/
theorem sendMessage_settlement_balance (st : ChatState) (env : SendEnv)
    (resp : CompletionResponse) (u : User)
    (hin : jsTrim st.inputMessage ≠ "") (hu : st.user = some u)
    (hadm : u.is_admin = true ∨ 0 < u.credits)
    (hc : env.completionResult = Except.ok resp) :
    (sendMessage st env).2.2 = SendOutcome.success ∧
    (sendMessage st env).1.user =
      some { u with credits :=
        u.credits - (if u.is_admin then 0 else (resp.total_tokens.getD 0 : Int)) } :=
  ⟨(sendMessage_ok_spec st env resp u hin hu hadm hc).1,
   (sendMessage_ok_spec st env resp u hin hu hadm hc).2.2.1⟩

/-- Witness for C2: the spec scenario — a non-exempt user at 1000 credits whose
send consumes 37 tokens ends at exactly 963 credits. -/
theorem sendMessage_settlement_balance_witness :
    (sendMessage
      { user := some { is_admin := false, credits := 1000 }, sessions := [],
        currentSession := none, messages := [], inputMessage := "hi",
        selectedModel := "m/x" }
      { createResult := Except.ok 1,
        completionResult := Except.ok { content := "a", total_tokens := some 37 } }).2.2
      = SendOutcome.success ∧
    (sendMessage
      { user := some { is_admin := false, credits := 1000 }, sessions := [],
        currentSession := none, messages := [], inputMessage := "hi",
        selectedModel := "m/x" }
      { createResult := Except.ok 1,
        completionResult := Except.ok { content := "a", total_tokens := some 37 } }).1.user
      = some { is_admin := false, credits := 963 } :=
  sendMessage_settlement_balance _ _ { content := "a", total_tokens := some 37 }
    { is_admin := false, credits := 1000 } (by decide) rfl (Or.inr (by decide)) rfl

/-- Claim C3: for every send whose completion invocation fails, the outcome
carries the invoker's error (surfaced, not swallowed), the visible message
list is restored to its exact pre-send value (the optimistic user turn is
discarded), the user record — hence the credit balance — is unchanged, and the
trace contains no debit event. -/
theorem sendMessage_failed_invocation_rollback (st : ChatState) (env : SendEnv)
    (e : ApiError) (u : User)
    (hin : jsTrim st.inputMessage ≠ "") (hu : st.user = some u)
    (hadm : u.is_admin = true ∨ 0 < u.credits)
    (hc : env.completionResult = Except.error e) :
    (sendMessage st env).2.2 = SendOutcome.failed e ∧
    (sendMessage st env).1.messages = st.messages ∧
    (sendMessage st env).1.user = st.user ∧
    (sendMessage st env).2.1.any isCreditsDebited = false :=
  sendMessage_failed_spec st env e u hin hu hadm hc

/-- Witness for C3: a failing upstream call on a send from a session with one
prior exchange leaves messages and balance untouched and surfaces the error. -/
theorem sendMessage_failed_invocation_rollback_witness :
    (sendMessage
      { user := some { is_admin := false, credits := 10 }, sessions := [],
        currentSession := some { id := 3, title := "t", model := "m/x", message_count := 2 },
        messages := [{ role := "user", content := "q" }, { role := "assistant", content := "r" }],
        inputMessage := "hi", selectedModel := "m/x" }
      { createResult := Except.ok 1,
        completionResult := Except.error { status := some 500, detail := some "boom" } }).2.2
      = SendOutcome.failed { status := some 500, detail := some "boom" } ∧
    (sendMessage
      { user := some { is_admin := false, credits := 10 }, sessions := [],
        currentSession := some { id := 3, title := "t", model := "m/x", message_count := 2 },
        messages := [{ role := "user", content := "q" }, { role := "assistant", content := "r" }],
        inputMessage := "hi", selectedModel := "m/x" }
      { createResult := Except.ok 1,
        completionResult := Except.error { status := some 500, detail := some "boom" } }).1.messages
      = [{ role := "user", content := "q" }, { role := "assistant", content := "r" }] ∧
    (sendMessage
      { user := some { is_admin := false, credits := 10 }, sessions := [],
        currentSession := some { id := 3, title := "t", model := "m/x", message_count := 2 },
        messages := [{ role := "user", content := "q" }, { role := "assistant", content := "r" }],
        inputMessage := "hi", selectedModel := "m/x" }
      { createResult := Except.ok 1,
        completionResult := Except.error { status := some 500, detail := some "boom" } }).1.user
      = some { is_admin := false, credits := 10 } ∧
    (sendMessage
      { user := some { is_admin := false, credits := 10 }, sessions := [],
        currentSession := some { id := 3, title := "t", model := "m/x", message_count := 2 },
        messages := [{ role := "user", content := "q" }, { role := "assistant", content := "r" }],
        inputMessage := "hi", selectedModel := "m/x" }
      { createResult := Except.ok 1,
        completionResult := Except.error { status := some 500, detail := some "boom" } }).2.1.any
        isCreditsDebited
      = false :=
  sendMessage_failed_invocation_rollback _ _ _ { is_admin := false, credits := 10 }
    (by decide) rfl (Or.inr (by decide)) rfl

/-- Claim C4: in every execution of `sendMessage`, over every state and every
network behaviour, the trace satisfies the ordering invariant — an assistant
append occurs only after a successful invocation, a credit debit occurs only
after both the user append and the assistant append, and a trace containing a
failed invocation contains neither a debit nor an assistant append (the last
conjunct: the conjunction of those event tests is identically false). -/
theorem sendMessage_ordering_invariant (st : ChatState) (env : SendEnv) :
    precedesB isInvocationSucceeded isAssistantAppended (sendMessage st env).2.1 = true ∧
    precedesB isUserAppended isCreditsDebited (sendMessage st env).2.1 = true ∧
    precedesB isAssistantAppended isCreditsDebited (sendMessage st env).2.1 = true ∧
    ((sendMessage st env).2.1.any isInvocationFailed &&
      ((sendMessage st env).2.1.any isCreditsDebited ||
       (sendMessage st env).2.1.any isAssistantAppended)) = false := by
  by_cases hin : jsTrim st.inputMessage = ""
  · simp [sendMessage, hin, precedesB]
  rcases hu : st.user with _ | ⟨adm, cr⟩
  · rcases hcc : env.completionResult with ⟨e⟩ | ⟨resp⟩
    · rcases hcs : st.currentSession with _ | s <;>
        rcases hc2 : env.createResult with ⟨e2⟩ | ⟨fid⟩ <;>
        simp [sendMessage, createNewSession, admissionDenied, hin, hu, hcc, hcs, hc2,
          jsTruthyTokens, precedesB, isInvocationSucceeded, isAssistantAppended,
          isUserAppended, isCreditsDebited, isInvocationFailed]
    · rcases ht : resp.total_tokens with _ | (_ | m) <;>
        rcases hcs : st.currentSession with _ | s <;>
        rcases hc2 : env.createResult with ⟨e2⟩ | ⟨fid⟩ <;>
        simp [sendMessage, createNewSession, admissionDenied, hin, hu, hcc, hcs, hc2, ht,
          jsTruthyTokens, precedesB, isInvocationSucceeded, isAssistantAppended,
          isUserAppended, isCreditsDebited, isInvocationFailed]
  rcases adm with _ | _
  · by_cases h0 : cr ≤ 0
    · simp [sendMessage, admissionDenied, hin, hu, h0, precedesB]
    · rcases hcc : env.completionResult with ⟨e⟩ | ⟨resp⟩
      · rcases hcs : st.currentSession with _ | s <;>
          rcases hc2 : env.createResult with ⟨e2⟩ | ⟨fid⟩ <;>
          simp [sendMessage, createNewSession, admissionDenied, hin, hu, h0, hcc, hcs, hc2,
            jsTruthyTokens, precedesB, isInvocationSucceeded, isAssistantAppended,
            isUserAppended, isCreditsDebited, isInvocationFailed]
      · rcases ht : resp.total_tokens with _ | (_ | m) <;>
          rcases hcs : st.currentSession with _ | s <;>
          rcases hc2 : env.createResult with ⟨e2⟩ | ⟨fid⟩ <;>
          simp [sendMessage, createNewSession, admissionDenied, hin, hu, h0, hcc, hcs, hc2, ht,
            jsTruthyTokens, precedesB, isInvocationSucceeded, isAssistantAppended,
            isUserAppended, isCreditsDebited, isInvocationFailed]
  · rcases hcc : env.completionResult with ⟨e⟩ | ⟨resp⟩
    · rcases hcs : st.currentSession with _ | s <;>
        rcases hc2 : env.createResult with ⟨e2⟩ | ⟨fid⟩ <;>
        simp [sendMessage, createNewSession, admissionDenied, hin, hu, hcc, hcs, hc2,
          jsTruthyTokens, precedesB, isInvocationSucceeded, isAssistantAppended,
          isUserAppended, isCreditsDebited, isInvocationFailed]
    · rcases ht : resp.total_tokens with _ | (_ | m) <;>
        rcases hcs : st.currentSession with _ | s <;>
        rcases hc2 : env.createResult with ⟨e2⟩ | ⟨fid⟩ <;>
        simp [sendMessage, createNewSession, admissionDenied, hin, hu, hcc, hcs, hc2, ht,
          jsTruthyTokens, precedesB, isInvocationSucceeded, isAssistantAppended,
          isUserAppended, isCreditsDebited, isInvocationFailed]

/-- Claim C5: for every successful send by an admitted user, the visible
message list afterwards is exactly the prior list with the trimmed user turn
and the assistant turn appended, so the length grows by exactly 2 and every
prior message is preserved unchanged and in order. -/
theorem sendMessage_success_appends_exactly_two (st : ChatState) (env : SendEnv)
    (resp : CompletionResponse) (u : User)
    (hin : jsTrim st.inputMessage ≠ "") (hu : st.user = some u)
    (hadm : u.is_admin = true ∨ 0 < u.credits)
    (hc : env.completionResult = Except.ok resp) :
    (sendMessage st env).1.messages =
      st.messages ++ [⟨"user", jsTrim st.inputMessage⟩, ⟨"assistant", resp.content⟩] ∧
    (sendMessage st env).1.messages.length = st.messages.length + 2 ∧
    (sendMessage st env).2.2 = SendOutcome.success := by
  obtain ⟨h1, h2, h3, h4⟩ := sendMessage_ok_spec st env resp u hin hu hadm hc
  refine ⟨h2, ?_, h1⟩
  rw [h2]
  simp

/-- Witness for C5: a send on a session holding one prior exchange ends with
that exchange intact followed by the new user and assistant turns. -/
theorem sendMessage_success_appends_exactly_two_witness :
    (sendMessage
      { user := some { is_admin := false, credits := 1000 }, sessions := [],
        currentSession := some { id := 3, title := "t", model := "m/x", message_count := 2 },
        messages := [{ role := "user", content := "q" }, { role := "assistant", content := "r" }],
        inputMessage := "hi", selectedModel := "m/x" }
      { createResult := Except.ok 1,
        completionResult := Except.ok { content := "a", total_tokens := some 37 } }).1.messages
      = [{ role := "user", content := "q" }, { role := "assistant", content := "r" },
         { role := "user", content := "hi" }, { role := "assistant", content := "a" }] ∧
    (sendMessage
      { user := some { is_admin := false, credits := 1000 }, sessions := [],
        currentSession := some { id := 3, title := "t", model := "m/x", message_count := 2 },
        messages := [{ role := "user", content := "q" }, { role := "assistant", content := "r" }],
        inputMessage := "hi", selectedModel := "m/x" }
      { createResult := Except.ok 1,
        completionResult := Except.ok { content := "a", total_tokens := some 37 } }).1.messages.length
      = 4 ∧
    (sendMessage
      { user := some { is_admin := false, credits := 1000 }, sessions := [],
        currentSession := some { id := 3, title := "t", model := "m/x", message_count := 2 },
        messages := [{ role := "user", content := "q" }, { role := "assistant", content := "r" }],
        inputMessage := "hi", selectedModel := "m/x" }
      { createResult := Except.ok 1,
        completionResult := Except.ok { content := "a", total_tokens := some 37 } }).2.2
      = SendOutcome.success :=
  sendMessage_success_appends_exactly_two _ _ { content := "a", total_tokens := some 37 }
    { is_admin := false, credits := 1000 } (by decide) rfl (Or.inr (by decide)) rfl

/-- Claim C7: the axios response-error interceptor propagates every failed
response to the calling code as a rejection carrying the original error
unchanged: for every error its returned result is `Except.error` of that very
error, never a success (nothing is swallowed or recovered into a response) and
never a re-issued request (the interceptor's action type contains no retry). -/
theorem responseInterceptor_propagates_error (e : ApiError) :
    (responseErrorInterceptor e).2 = Except.error e := by
  by_cases h1 : e.status = some 401 <;> by_cases h2 : e.status = some 402 <;>
    simp [responseErrorInterceptor, h1, h2]

/-- Counterexample to claim C6 as stated: a concrete send with no session
selected, an admitted user and a failing `POST /chat/sessions` call. The
completion is still invoked (the trace contains `invocationStarted`) although
no session was created (no `sessionCreated` event, session list still empty):
`createNewSession`'s catch block swallows the failure and `sendMessage`
proceeds without a session. -/
theorem sendMessage_session_resolution_counterexample :
    ({ user := some { is_admin := false, credits := 5 }, sessions := [],
       currentSession := none, messages := [], inputMessage := "hi",
       selectedModel := "m/x" } : ChatState).currentSession = none ∧
    (sendMessage
      { user := some { is_admin := false, credits := 5 }, sessions := [],
        currentSession := none, messages := [], inputMessage := "hi",
        selectedModel := "m/x" }
      { createResult := Except.error { status := some 500, detail := none },
        completionResult := Except.ok { content := "a", total_tokens := some 3 } }).2.1.any
        isInvocationStarted = true ∧
    (sendMessage
      { user := some { is_admin := false, credits := 5 }, sessions := [],
        currentSession := none, messages := [], inputMessage := "hi",
        selectedModel := "m/x" }
      { createResult := Except.error { status := some 500, detail := none },
        completionResult := Except.ok { content := "a", total_tokens := some 3 } }).2.1.any
        isSessionCreated = false ∧
    (sendMessage
      { user := some { is_admin := false, credits := 5 }, sessions := [],
        currentSession := none, messages := [], inputMessage := "hi",
        selectedModel := "m/x" }
      { createResult := Except.error { status := some 500, detail := none },
        completionResult := Except.ok { content := "a", total_tokens := some 3 } }).1.sessions
      = [] := by
  decide

/-- Claim C6 as amended: for every send by an admitted user issued while no
session is selected, *when the session-creation call succeeds* a new session —
built by the Session Store from the currently requested model, with message
count 0 — is created first (it is the very first trace event) and only then is
the completion invoked; when a session is already selected, no session is
created and the selected session is kept. (The amendment is forced by the
counterexample: when the creation call fails, the client swallows the failure
and invokes the completion with no session.) -/
theorem sendMessage_session_resolution_amended (st : ChatState) (env : SendEnv)
    (u : User) (fid : Nat)
    (hin : jsTrim st.inputMessage ≠ "") (hu : st.user = some u)
    (hadm : u.is_admin = true ∨ 0 < u.credits) :
    (st.currentSession = none → env.createResult = Except.ok fid →
      (sendMessage st env).2.1.head? =
        some (SendEvent.sessionCreated (createSessionStore fid "New Chat" st.selectedModel)) ∧
      precedesB isSessionCreated isInvocationStarted (sendMessage st env).2.1 = true ∧
      (sendMessage st env).2.1.any isInvocationStarted = true ∧
      (createSessionStore fid "New Chat" st.selectedModel).message_count = 0 ∧
      (createSessionStore fid "New Chat" st.selectedModel).model = st.selectedModel) ∧
    (st.currentSession.isSome = true →
      (sendMessage st env).2.1.any isSessionCreated = false ∧
      (sendMessage st env).1.currentSession = st.currentSession) := by
  obtain ⟨adm, cr⟩ := u
  have hden : admissionDenied (some (⟨adm, cr⟩ : User)) = false := admissionDenied_false hadm
  constructor
  · intro hcs hcr
    rcases hcc : env.completionResult with ⟨e⟩ | ⟨resp⟩
    · simp [sendMessage, createNewSession, createSessionStore, hin, hden, hu, hcs, hcr, hcc,
        precedesB, isSessionCreated, isInvocationStarted]
    · cases adm <;> rcases ht : resp.total_tokens with _ | (_ | m) <;>
        simp [sendMessage, createNewSession, createSessionStore, hin, hden, hu, hcs, hcr, hcc,
          ht, jsTruthyTokens, precedesB, isSessionCreated, isInvocationStarted]
  · intro hs
    rcases hcs : st.currentSession with _ | s
    · rw [hcs] at hs; simp at hs
    rcases hcc : env.completionResult with ⟨e⟩ | ⟨resp⟩
    · simp [sendMessage, hin, hden, hu, hcs, hcc, isSessionCreated]
    · cases adm <;> rcases ht : resp.total_tokens with _ | (_ | m) <;>
        simp [sendMessage, hin, hden, hu, hcs, hcc, ht, jsTruthyTokens, isSessionCreated]

/-- Witness for the amended C6: with no session selected, a granted fresh id 7
and a successful completion, the first trace event is the creation of the
session built from the requested model, and the invocation does occur. -/
theorem sendMessage_session_resolution_amended_witness :
    (sendMessage
      { user := some { is_admin := false, credits := 5 }, sessions := [],
        currentSession := none, messages := [], inputMessage := "hi",
        selectedModel := "m/x" }
      { createResult := Except.ok 7,
        completionResult := Except.ok { content := "a", total_tokens := some 3 } }).2.1.head?
      = some (SendEvent.sessionCreated (createSessionStore 7 "New Chat" "m/x")) ∧
    precedesB isSessionCreated isInvocationStarted
      (sendMessage
        { user := some { is_admin := false, credits := 5 }, sessions := [],
          currentSession := none, messages := [], inputMessage := "hi",
          selectedModel := "m/x" }
        { createResult := Except.ok 7,
          completionResult := Except.ok { content := "a", total_tokens := some 3 } }).2.1 = true ∧
    (sendMessage
      { user := some { is_admin := false, credits := 5 }, sessions := [],
        currentSession := none, messages := [], inputMessage := "hi",
        selectedModel := "m/x" }
      { createResult := Except.ok 7,
        completionResult := Except.ok { content := "a", total_tokens := some 3 } }).2.1.any
        isInvocationStarted = true ∧
    (createSessionStore 7 "New Chat" "m/x").message_count = 0 ∧
    (createSessionStore 7 "New Chat" "m/x").model = "m/x" :=
  (sendMessage_session_resolution_amended _ _ { is_admin := false, credits := 5 } 7
    (by decide) rfl (Or.inr (by decide))).1 rfl rfl

/-- Claim C8: for every session present in the store and owned by the caller,
deleting it succeeds and a subsequent fetch yields `NotFound`; deleting it a
second time yields `NotFound` as an ordinary error value (no crash: the
operations are total), and the caller's client state — in particular its
session list — and the store after the second delete equal those after the
first. -/
theorem deleteSession_then_fetch_notFound_idempotent (st : ChatState)
    (store : List StoredSession) (sid owner : Nat)
    (hex : store.any (ownedWithId sid owner) = true) :
    storeGetSession (clientDeleteSession st store sid owner).2.1 sid owner
        = Except.error StoreError.NotFound ∧
    (clientDeleteSession st store sid owner).2.2 = Except.ok () ∧
    (clientDeleteSession (clientDeleteSession st store sid owner).1
        (clientDeleteSession st store sid owner).2.1 sid owner).2.2
      = Except.error StoreError.NotFound ∧
    (clientDeleteSession (clientDeleteSession st store sid owner).1
        (clientDeleteSession st store sid owner).2.1 sid owner).1
      = (clientDeleteSession st store sid owner).1 ∧
    (clientDeleteSession (clientDeleteSession st store sid owner).1
        (clientDeleteSession st store sid owner).2.1 sid owner).2.1
      = (clientDeleteSession st store sid owner).2.1 := by
  have hdel : storeDeleteSession store sid owner =
      Except.ok (store.filter (fun s => !ownedWithId sid owner s)) := by
    simp [storeDeleteSession, hex]
  have hget : storeGetSession (store.filter (fun s => !ownedWithId sid owner s)) sid owner
      = Except.error StoreError.NotFound := by
    unfold storeGetSession
    rw [find?_filter_not]
  have hany : (store.filter (fun s => !ownedWithId sid owner s)).any (ownedWithId sid owner)
      = false := any_filter_not _ _
  have hdel2 : storeDeleteSession (store.filter (fun s => !ownedWithId sid owner s)) sid owner
      = Except.error StoreError.NotFound := by
    unfold storeDeleteSession
    rw [hany]
    simp
  simp [clientDeleteSession, hdel, hdel2, hget]

/-- Witness for C8: a store holding exactly session 1 owned by user 2, deleted
twice by its owner. -/
theorem deleteSession_then_fetch_notFound_idempotent_witness :
    storeGetSession
      (clientDeleteSession
        { user := none, sessions := [{ id := 1, title := "t", model := "m", message_count := 0 }],
          currentSession := none, messages := [], inputMessage := "", selectedModel := "m" }
        [{ id := 1, owner := 2, title := "t", model := "m", messages := [] }] 1 2).2.1 1 2
      = Except.error StoreError.NotFound ∧
    (clientDeleteSession
      { user := none, sessions := [{ id := 1, title := "t", model := "m", message_count := 0 }],
        currentSession := none, messages := [], inputMessage := "", selectedModel := "m" }
      [{ id := 1, owner := 2, title := "t", model := "m", messages := [] }] 1 2).2.2
      = Except.ok () ∧
    (clientDeleteSession
      (clientDeleteSession
        { user := none, sessions := [{ id := 1, title := "t", model := "m", message_count := 0 }],
          currentSession := none, messages := [], inputMessage := "", selectedModel := "m" }
        [{ id := 1, owner := 2, title := "t", model := "m", messages := [] }] 1 2).1
      (clientDeleteSession
        { user := none, sessions := [{ id := 1, title := "t", model := "m", message_count := 0 }],
          currentSession := none, messages := [], inputMessage := "", selectedModel := "m" }
        [{ id := 1, owner := 2, title := "t", model := "m", messages := [] }] 1 2).2.1 1 2).2.2
      = Except.error StoreError.NotFound ∧
    (clientDeleteSession
      (clientDeleteSession
        { user := none, sessions := [{ id := 1, title := "t", model := "m", message_count := 0 }],
          currentSession := none, messages := [], inputMessage := "", selectedModel := "m" }
        [{ id := 1, owner := 2, title := "t", model := "m", messages := [] }] 1 2).1
      (clientDeleteSession
        { user := none, sessions := [{ id := 1, title := "t", model := "m", message_count := 0 }],
          currentSession := none, messages := [], inputMessage := "", selectedModel := "m" }
        [{ id := 1, owner := 2, title := "t", model := "m", messages := [] }] 1 2).2.1 1 2).1
      = (clientDeleteSession
        { user := none, sessions := [{ id := 1, title := "t", model := "m", message_count := 0 }],
          currentSession := none, messages := [], inputMessage := "", selectedModel := "m" }
        [{ id := 1, owner := 2, title := "t", model := "m", messages := [] }] 1 2).1 ∧
    (clientDeleteSession
      (clientDeleteSession
        { user := none, sessions := [{ id := 1, title := "t", model := "m", message_count := 0 }],
          currentSession := none, messages := [], inputMessage := "", selectedModel := "m" }
        [{ id := 1, owner := 2, title := "t", model := "m", messages := [] }] 1 2).1
      (clientDeleteSession
        { user := none, sessions := [{ id := 1, title := "t", model := "m", message_count := 0 }],
          currentSession := none, messages := [], inputMessage := "", selectedModel := "m" }
        [{ id := 1, owner := 2, title := "t", model := "m", messages := [] }] 1 2).2.1 1 2).2.1
      = (clientDeleteSession
        { user := none, sessions := [{ id := 1, title := "t", model := "m", message_count := 0 }],
          currentSession := none, messages := [], inputMessage := "", selectedModel := "m" }
        [{ id := 1, owner := 2, title := "t", model := "m", messages := [] }] 1 2).2.1 :=
  deleteSession_then_fetch_notFound_idempotent _ _ 1 2 (by decide)

/-- Claim C9: when a successful completion carries no usable token count —
`usage`/`total_tokens` absent or null (`none`) or present but zero — a
non-exempt admitted user's record is left untouched and the trace contains no
debit event: the settlement step is skipped entirely rather than applied with
amount 0. -/
theorem sendMessage_no_usage_skips_settlement (st : ChatState) (env : SendEnv)
    (resp : CompletionResponse) (u : User)
    (hin : jsTrim st.inputMessage ≠ "") (hu : st.user = some u)
    (hadmin : u.is_admin = false) (hpos : 0 < u.credits)
    (hc : env.completionResult = Except.ok resp)
    (ht : resp.total_tokens = none ∨ resp.total_tokens = some 0) :
    (sendMessage st env).2.2 = SendOutcome.success ∧
    (sendMessage st env).1.user = st.user ∧
    (sendMessage st env).2.1.any isCreditsDebited = false := by
  obtain ⟨adm, cr⟩ := u
  rw [show adm = false from hadmin] at hu
  obtain ⟨h1, h2, h3, h4⟩ :=
    sendMessage_ok_spec st env resp ⟨false, cr⟩ hin hu (Or.inr hpos) hc
  refine ⟨h1, ?_, ?_⟩
  · rw [h3, hu]
    rcases ht with ht | ht <;> simp [ht]
  · rw [h4]
    rcases ht with ht | ht <;> simp [ht, jsTruthyTokens]

/-- Witness for C9: a successful completion reporting `total_tokens = 0` to a
non-exempt user at 50 credits leaves the user record unchanged with no debit
event. -/
theorem sendMessage_no_usage_skips_settlement_witness :
    (sendMessage
      { user := some { is_admin := false, credits := 50 }, sessions := [],
        currentSession := some { id := 3, title := "t", model := "m/x", message_count := 0 },
        messages := [], inputMessage := "hi", selectedModel := "m/x" }
      { createResult := Except.ok 1,
        completionResult := Except.ok { content := "a", total_tokens := some 0 } }).2.2
      = SendOutcome.success ∧
    (sendMessage
      { user := some { is_admin := false, credits := 50 }, sessions := [],
        currentSession := some { id := 3, title := "t", model := "m/x", message_count := 0 },
        messages := [], inputMessage := "hi", selectedModel := "m/x" }
      { createResult := Except.ok 1,
        completionResult := Except.ok { content := "a", total_tokens := some 0 } }).1.user
      = some { is_admin := false, credits := 50 } ∧
    (sendMessage
      { user := some { is_admin := false, credits := 50 }, sessions := [],
        currentSession := some { id := 3, title := "t", model := "m/x", message_count := 0 },
        messages := [], inputMessage := "hi", selectedModel := "m/x" }
      { createResult := Except.ok 1,
        completionResult := Except.ok { content := "a", total_tokens := some 0 } }).2.1.any
        isCreditsDebited = false :=
  sendMessage_no_usage_skips_settlement _ _ { content := "a", total_tokens := some 0 }
    { is_admin := false, credits := 50 } (by decide) rfl rfl (by decide) rfl (Or.inr rfl)

/-- Claim C10: when the completion call fails on a send that had no session
selected and whose session creation succeeded, the created session is not
rolled back: it stays as the newest (first) entry of the client session list,
still empty (message count 0 by construction), and remains selected, while the
visible message list reverts to its pre-send value and the user record — hence
the credit balance — is unchanged. -/
theorem sendMessage_failed_send_keeps_created_session (st : ChatState) (env : SendEnv)
    (u : User) (fid : Nat) (e : ApiError)
    (hin : jsTrim st.inputMessage ≠ "") (hu : st.user = some u)
    (hadm : u.is_admin = true ∨ 0 < u.credits)
    (hcs : st.currentSession = none)
    (hcr : env.createResult = Except.ok fid)
    (hc : env.completionResult = Except.error e) :
    (sendMessage st env).2.2 = SendOutcome.failed e ∧
    (sendMessage st env).1.sessions =
      createSessionStore fid "New Chat" st.selectedModel :: st.sessions ∧
    (sendMessage st env).1.currentSession =
      some (createSessionStore fid "New Chat" st.selectedModel) ∧
    (createSessionStore fid "New Chat" st.selectedModel).message_count = 0 ∧
    (sendMessage st env).1.messages = st.messages ∧
    (sendMessage st env).1.user = st.user := by
  have hden : admissionDenied st.user = false := by rw [hu]; exact admissionDenied_false hadm
  simp [sendMessage, createNewSession, createSessionStore, hin, hden, hc, hcs, hcr]

/-- Witness for C10: a failed completion on a fresh-session send leaves the new
session (id 7) first in the list, selected and empty, with messages and balance
as before the send. -/
theorem sendMessage_failed_send_keeps_created_session_witness :
    (sendMessage
      { user := some { is_admin := false, credits := 5 }, sessions := [],
        currentSession := none, messages := [], inputMessage := "hi",
        selectedModel := "m/x" }
      { createResult := Except.ok 7,
        completionResult := Except.error { status := some 500, detail := none } }).2.2
      = SendOutcome.failed { status := some 500, detail := none } ∧
    (sendMessage
      { user := some { is_admin := false, credits := 5 }, sessions := [],
        currentSession := none, messages := [], inputMessage := "hi",
        selectedModel := "m/x" }
      { createResult := Except.ok 7,
        completionResult := Except.error { status := some 500, detail := none } }).1.sessions
      = [createSessionStore 7 "New Chat" "m/x"] ∧
    (sendMessage
      { user := some { is_admin := false, credits := 5 }, sessions := [],
        currentSession := none, messages := [], inputMessage := "hi",
        selectedModel := "m/x" }
      { createResult := Except.ok 7,
        completionResult := Except.error { status := some 500, detail := none } }).1.currentSession
      = some (createSessionStore 7 "New Chat" "m/x") ∧
    (createSessionStore 7 "New Chat" "m/x").message_count = 0 ∧
    (sendMessage
      { user := some { is_admin := false, credits := 5 }, sessions := [],
        currentSession := none, messages := [], inputMessage := "hi",
        selectedModel := "m/x" }
      { createResult := Except.ok 7,
        completionResult := Except.error { status := some 500, detail := none } }).1.messages
      = [] ∧
    (sendMessage
      { user := some { is_admin := false, credits := 5 }, sessions := [],
        currentSession := none, messages := [], inputMessage := "hi",
        selectedModel := "m/x" }
      { createResult := Except.ok 7,
        completionResult := Except.error { status := some 500, detail := none } }).1.user
      = some { is_admin := false, credits := 5 } :=
  sendMessage_failed_send_keeps_created_session _ _ { is_admin := false, credits := 5 } 7
    { status := some 500, detail := none } (by decide) rfl (Or.inr (by decide)) rfl rfl rfl
